import Mathlib

/-!
Verification development for the drone localization repository
(`particle_filter.cpp`, `coverage_finder.cpp`).

The development shallowly embeds the functions of the two source files:
the tf2 geometry used by `Particles::isAboveMotionThreshold`, the laser
preprocessing of `Particles::prepareLaserPointCloud`, the localization
engine state machine driven by `Particles::scanCallback` and the three
initialization callbacks, and `CoverageFinder::publishWaypoints`.

Real-valued geometry (rotation matrices, Euler extraction) is embedded
over `ℝ`.  The engine state machine is embedded with exact data:
timestamps are integers (ROS times are integral sec/nsec pairs; only
their ordering and differences matter to the engine), pose coordinates
are rationals.  External collaborators (the libPF particle-filter
library, the tf2 transform buffer, the PCL uniform-sampling primitive)
are modelled at their interfaces: the particle population is represented
by the syntactic history of the libPF operations the engine applied to
it, transform lookups are inputs of each step, and the uniform-sampling
result is an input index list.
-/

/- ## Section 1: tf2 geometry (Vector3, Matrix3x3, Transform) -/

/-- A 3-vector over ℝ, mirroring tf2::Vector3. -/
@[ext]
structure V3 where
  x : ℝ
  y : ℝ
  z : ℝ

instance : Inhabited V3 := ⟨⟨0, 0, 0⟩⟩

def V3.sub (a b : V3) : V3 := ⟨a.x - b.x, a.y - b.y, a.z - b.z⟩

def V3.dot (a b : V3) : ℝ := a.x * b.x + a.y * b.y + a.z * b.z

/-- Length of a tf2::Vector3: sqrt of the dot product with itself. -/
noncomputable def V3.length (a : V3) : ℝ := Real.sqrt (a.dot a)

/-- A 3x3 matrix over ℝ given by its rows, mirroring tf2::Matrix3x3
(m_el[0], m_el[1], m_el[2]). -/
@[ext]
structure M3 where
  r0 : V3
  r1 : V3
  r2 : V3

def M3.transpose (m : M3) : M3 :=
  ⟨⟨m.r0.x, m.r1.x, m.r2.x⟩, ⟨m.r0.y, m.r1.y, m.r2.y⟩, ⟨m.r0.z, m.r1.z, m.r2.z⟩⟩

def M3.mulV (m : M3) (v : V3) : V3 := ⟨m.r0.dot v, m.r1.dot v, m.r2.dot v⟩

def M3.mulM (m n : M3) : M3 :=
  let nt := n.transpose
  ⟨⟨m.r0.dot nt.r0, m.r0.dot nt.r1, m.r0.dot nt.r2⟩,
   ⟨m.r1.dot nt.r0, m.r1.dot nt.r1, m.r1.dot nt.r2⟩,
   ⟨m.r2.dot nt.r0, m.r2.dot nt.r1, m.r2.dot nt.r2⟩⟩

def M3.id : M3 := ⟨⟨1, 0, 0⟩, ⟨0, 1, 0⟩, ⟨0, 0, 1⟩⟩

/-- Rotation about the x axis (a pure roll), row-major. -/
noncomputable def M3.rotX (t : ℝ) : M3 :=
  ⟨⟨1, 0, 0⟩, ⟨0, Real.cos t, -Real.sin t⟩, ⟨0, Real.sin t, Real.cos t⟩⟩

/-- Rotation about the z axis (a pure yaw), row-major. -/
noncomputable def M3.rotZ (t : ℝ) : M3 :=
  ⟨⟨Real.cos t, -Real.sin t, 0⟩, ⟨Real.sin t, Real.cos t, 0⟩, ⟨0, 0, 1⟩⟩

/-- A rigid transform, mirroring tf2::Transform (basis + origin). -/
@[ext]
structure TF where
  basis : M3
  origin : V3

def TF.identityTF : TF := ⟨M3.id, ⟨0, 0, 0⟩⟩

/-- tf2::Transform::inverseTimes: basis is this.basisᵀ * t.basis, origin is
(t.origin - this.origin) multiplied on the left by this.basisᵀ
(bullet's v * M is the vector of column dot products). -/
def TF.inverseTimes (a t : TF) : TF :=
  ⟨a.basis.transpose.mulM t.basis, a.basis.transpose.mulV (t.origin.sub a.origin)⟩

/-- Two-argument arctangent with the usual atan2 conventions, modelling
the tf2Atan2 primitive used by tf2::Matrix3x3. -/
noncomputable def atan2 (y x : ℝ) : ℝ :=
  if 0 < x then Real.arctan (y / x)
  else if x < 0 then
    (if 0 ≤ y then Real.arctan (y / x) + Real.pi else Real.arctan (y / x) - Real.pi)
  else
    (if 0 < y then Real.pi / 2 else if y < 0 then -(Real.pi / 2) else 0)

/-- Euler angles (first solution) as extracted by tf2::Matrix3x3::getEulerYPR:
returns (yaw, pitch, roll).  Away from the gimbal-lock singularity the code
computes pitch = -asin(m20), roll = atan2(m21 / cos pitch, m22 / cos pitch),
yaw = atan2(m10 / cos pitch, m00 / cos pitch). -/
noncomputable def M3.getEulerYPR (m : M3) : ℝ × ℝ × ℝ :=
  if 1 ≤ |m.r2.x| then
    if m.r2.x < 0 then
      (0, Real.pi / 2, atan2 m.r0.y m.r0.z)
    else
      (0, -(Real.pi / 2), atan2 (-m.r0.y) (-m.r0.z))
  else
    let pitch := -(Real.arcsin m.r2.x)
    (atan2 (m.r1.x / Real.cos pitch) (m.r0.x / Real.cos pitch),
     pitch,
     atan2 (m.r2.y / Real.cos pitch) (m.r2.z / Real.cos pitch))

/-- tf2::Matrix3x3::getRPY(roll, pitch, yaw) delegates to getEulerYPR(yaw,
pitch, roll); this returns (roll, pitch, yaw). -/
noncomputable def M3.getRPY (m : M3) : ℝ × ℝ × ℝ :=
  let e := m.getEulerYPR
  (e.2.2, e.2.1, e.1)

/-- Particles::isAboveMotionThreshold: forms the relative transform from the
last localized pose to the odometry pose via inverseTimes, extracts RPY from
its basis, and is true iff the origin length reaches the translation threshold
or the absolute yaw reaches the rotation threshold.  Roll and pitch are
extracted but not consulted. -/
noncomputable def isAboveMotionThreshold (thTrans thRot : ℝ) (lastLocalizedPose odomPose : TF) : Prop :=
  let odomTransform := lastLocalizedPose.inverseTimes odomPose
  let rpy := odomTransform.basis.getRPY
  thTrans ≤ odomTransform.origin.length ∨ thRot ≤ |rpy.2.2|

/-- Constructor default of the parameter observation_threshold_trans. -/
noncomputable def defaultThresholdTranslation : ℝ := 3 / 10

/-- Constructor default of the parameter observation_threshold_rot. -/
noncomputable def defaultThresholdRotation : ℝ := 2 / 5

/-- Rotation angle of a relative transform, the standard notion used by the
claim "the vehicle has rotated beyond the rotation threshold on any rotation
axis": arccos((trace - 1) / 2) of the rotation matrix. -/
noncomputable def rotationAngleOf (t : TF) : ℝ :=
  Real.arccos ((t.basis.r0.x + t.basis.r1.y + t.basis.r2.z - 1) / 2)

/- ## Section 2: laser preprocessing (Particles::prepareLaserPointCloud) -/

/-- The fields of sensor_msgs::LaserScan consumed by the preprocessor. -/
structure LaserScanMsg where
  angle_min : ℚ
  angle_increment : ℚ
  range_min : ℚ
  ranges : List ℚ

/-- The parameters of the preprocessor (set in the Particles constructor). -/
structure LaserCfg where
  filterMinRange : ℚ
  filterMaxRange : ℚ

/-- Cartesian endpoint of a retained beam: the rotation about (0,0,1) by the
beam angle applied to (range, 0, 0), i.e. (r cos θ, r sin θ, 0). -/
noncomputable def beamPoint (angle r : ℚ) : V3 :=
  ⟨(r : ℝ) * Real.cos (angle : ℝ), (r : ℝ) * Real.sin (angle : ℝ), 0⟩

/-- The beam loop of prepareLaserPointCloud: walks the ranges with the running
beam index, keeps a beam iff laserMin ≤ range ≤ filterMaxRange, pushing its
Cartesian point (at angle angle_min + beamId * angle_increment) and its range
onto the two parallel output sequences. -/
noncomputable def prepareBeams (laserMin fMax am inc : ℚ) : ℕ → List ℚ → List V3 × List ℚ
  | _, [] => ([], [])
  | beamId, r :: rest =>
    let tail := prepareBeams laserMin fMax am inc (beamId + 1) rest
    if laserMin ≤ r ∧ r ≤ fMax then
      (beamPoint (am + beamId * inc) r :: tail.1, r :: tail.2)
    else tail

/-- Stage one of prepareLaserPointCloud (before downsampling): the retained
points and the parallel retained ranges, with laserMin = max(range_min,
filterMinRange). -/
noncomputable def prepareFiltered (cfg : LaserCfg) (scan : LaserScanMsg) : List V3 × List ℚ :=
  prepareBeams (max scan.range_min cfg.filterMinRange) cfg.filterMaxRange
    scan.angle_min scan.angle_increment 0 scan.ranges

/-- The in-range beams as (beamId, range) pairs; reference description of the
retained set used to state exactness of the filter. -/
def keptBeams (laserMin fMax : ℚ) : ℕ → List ℚ → List (ℕ × ℚ)
  | _, [] => []
  | beamId, r :: rest =>
    if laserMin ≤ r ∧ r ≤ fMax then
      (beamId, r) :: keptBeams laserMin fMax (beamId + 1) rest
    else keptBeams laserMin fMax (beamId + 1) rest

/-- Stage two of prepareLaserPointCloud: the PCL uniform sampling returns a
list of indices into the stage-one cloud; the code copies the cloud at those
indices and rebuilds ranges as rangesSparse[i] = ranges[sampledIndices[i]]. -/
noncomputable def downsampleRetain (pc : List V3) (ranges : List ℚ) (sampledIndices : List ℕ) :
    List V3 × List ℚ :=
  (sampledIndices.map (fun i => pc.getD i ⟨0, 0, 0⟩),
   sampledIndices.map (fun i => ranges.getD i 0))

/-- Full prepareLaserPointCloud, parametric in the index list produced by the
external pcl::UniformSampling collaborator. -/
noncomputable def prepareLaserPointCloud (cfg : LaserCfg) (scan : LaserScanMsg)
    (sampledIndices : List ℕ) : List V3 × List ℚ :=
  let fp := prepareFiltered cfg scan
  downsampleRetain fp.1 fp.2 sampledIndices

/- ## Section 3: localization engine (Particles callbacks) -/

/-- A 6-DOF pose value as the engine bookkeeping stores it.  The engine only
moves poses around and hands them to the geometric gate; the quaternion/Euler
representation conversions are irrelevant to the bookkeeping and elided. -/
structure Pose6 where
  x : ℚ
  y : ℚ
  z : ℚ
  roll : ℚ
  pitch : ℚ
  yaw : ℚ
deriving DecidableEq

/-- The all-zero pose (a default-constructed geometry_msgs::Pose position and
orientation, up to representation). -/
def Pose6.zero : Pose6 := ⟨0, 0, 0, 0, 0, 0⟩

/-- A pose with the integral ROS timestamp of its message header. -/
structure StampedPose where
  stamp : Int
  pose : Pose6
deriving DecidableEq

/-- The per-axis standard deviations configured in the constructor. -/
structure StdDevs where
  x : ℚ
  y : ℚ
  z : ℚ
  roll : ℚ
  pitch : ℚ
  yaw : ℚ
deriving DecidableEq

/-- A DroneStateDistribution as the initialization callbacks build it: either
Gaussian around a mean with per-axis standard deviations (setUniform(false) +
setStdDev) or uniform over the free space of the occupancy map
(setUniform(true)). -/
inductive Distribution where
  | gaussian (mean : Pose6) (std : StdDevs)
  | uniformMap
deriving DecidableEq

/-- Modelled from the spec: the libPF resampling modes RESAMPLE_NEVER,
RESAMPLE_ALWAYS, RESAMPLE_NEFF (libPF is an external library; only the mode
selection appears in the source). -/
inductive ResamplingMode where
  | never
  | always
  | neff
deriving DecidableEq

/-- The particle population, represented by the syntactic history of the libPF
operations the engine applied to it (the population internals live in the
external libPF library; the claims only need whether and how the population
was changed). -/
inductive PFContent where
  | initialPopulation
  | drawnFrom (d : Distribution)
  | filtered (prev : PFContent) (dt : Int)
  | drifted (prev : PFContent) (dt : Int)
deriving DecidableEq

/-- Modelled from the spec: the libPF::ParticleFilter state visible through
the calls the source makes — the population, the selected resampling mode,
and the internal timer that filter/drift advance and resetTimer clears. -/
structure ParticleFilterState where
  content : PFContent
  resamplingMode : ResamplingMode
  timer : Int
deriving DecidableEq

/-- Modelled from the spec: ParticleFilter::drawAllFromDistribution re-seeds
the whole population from the given distribution. -/
def pfDrawAllFromDistribution (d : Distribution) (pf : ParticleFilterState) : ParticleFilterState :=
  { pf with content := .drawnFrom d }

/-- ParticleFilter::setResamplingMode. -/
def pfSetResamplingMode (m : ResamplingMode) (pf : ParticleFilterState) : ParticleFilterState :=
  { pf with resamplingMode := m }

/-- Modelled from the spec: ParticleFilter::resetTimer resets the filter's
internal timer. -/
def pfResetTimer (pf : ParticleFilterState) : ParticleFilterState :=
  { pf with timer := 0 }

/-- Modelled from the spec: ParticleFilter::filter(dt) performs the full
predict/reweight/resample-if-needed step and advances the internal clock. -/
def pfFilter (dt : Int) (pf : ParticleFilterState) : ParticleFilterState :=
  { pf with content := .filtered pf.content dt, timer := pf.timer + dt }

/-- Modelled from the spec: ParticleFilter::drift(dt) performs the
motion-model-only time update; the internal clock always advances. -/
def pfDrift (dt : Int) (pf : ParticleFilterState) : ParticleFilterState :=
  { pf with content := .drifted pf.content dt, timer := pf.timer + dt }

/-- The map-to-world correction transform the engine stores
(_latestTransform): identity after the constructor, or a value obtained from
the external transform buffer on a successful publish. -/
inductive Correction where
  | identityC
  | external (n : ℕ)
deriving DecidableEq

/-- The engine parameters: configured standard deviations, the pose
parameters read by the initialize_pose service, the transform tolerance, the
publish-on-update flag (declared in the header, outside the source file), and
the motion gate as a boolean function of the two poses — its geometric
content (isAboveMotionThreshold) is embedded separately over ℝ. -/
structure EngineCfg where
  stdDevs : StdDevs
  paramPose : Pose6
  transformTolerance : Int
  publishUpdated : Bool
  gate : Pose6 → Pose6 → Bool

/-- The mutable localization state of the Particles object. -/
structure EngineState where
  initialized : Bool
  receivedSensorData : Bool
  firstRun : Bool
  lastLaserTime : Int
  lastLocalizedPose : Pose6
  lastOdomPose : StampedPose
  pf : ParticleFilterState
  latestTransform : Correction
deriving DecidableEq

/-- The state right after the Particles constructor: not initialized, no
sensor data received, first run pending, identity correction, zero times. -/
def initialState : EngineState :=
  { initialized := false
    receivedSensorData := false
    firstRun := true
    lastLaserTime := 0
    lastLocalizedPose := Pose6.zero
    lastOdomPose := ⟨0, Pose6.zero⟩
    pf := ⟨.initialPopulation, .neff, 0⟩
    latestTransform := .identityC }

/-- Everything the engine publishes or broadcasts. -/
inductive Output where
  | filteredCloud
  | poseArray (stamp : Int)
  | bestPose (stamp : Int)
  | correction (c : Correction) (stamp : Int)
deriving DecidableEq

/-- The external inputs of one publishPoseEstimate call: the result of the
transform-buffer chain that turns the best particle pose into the
world-to-map correction (none models a tf2::TransformException). -/
structure PublishEnv where
  worldToMap : Option Correction

/-- Particles::publishPoseEstimate: publishes the pose array and the best
particle pose at time t unconditionally, then tries to resolve the
world-to-map correction through the transform buffer; on failure it returns
leaving the stored correction unchanged, on success it stores the new
correction and broadcasts it stamped t + transformTolerance. -/
def publishPoseEstimate (cfg : EngineCfg) (env : PublishEnv) (t : Int) (s : EngineState) :
    EngineState × List Output :=
  let outs := [Output.poseArray t, Output.bestPose t]
  match env.worldToMap with
  | none => (s, outs)
  | some w => ({ s with latestTransform := w }, outs ++ [.correction w (t + cfg.transformTolerance)])

/-- Particles::latestTransformTimerCallback: re-broadcasts the stored
correction (inverted, which the token carries) stamped now +
transformTolerance; the state is untouched. -/
def latestTransformTimerCallback (cfg : EngineCfg) (now : Int) (s : EngineState) :
    EngineState × List Output :=
  (s, [.correction s.latestTransform (now + cfg.transformTolerance)])

/-- Modelled from the spec: DroneMovementModel::reset (declared in a header
outside the source file) clears the movement model's odometry bookkeeping;
the initialization callbacks call it through _mm->reset(). -/
def movementModelReset (s : EngineState) : EngineState :=
  { s with lastOdomPose := ⟨0, Pose6.zero⟩ }

/-- The shared tail of the three initialization callbacks: draw all particles
from the distribution, select RESAMPLE_NEFF, reset the libPF timer, reset the
movement model, raise the initialized / receivedSensorData / firstRun flags,
and publish a pose estimate at time t. -/
def initializeCommon (cfg : EngineCfg) (env : PublishEnv) (d : Distribution) (t : Int)
    (s : EngineState) : EngineState × List Output :=
  let pf1 := pfResetTimer (pfSetResamplingMode .neff (pfDrawAllFromDistribution d s.pf))
  let s1 := movementModelReset { s with pf := pf1 }
  let s2 := { s1 with initialized := true, receivedSensorData := true, firstRun := true }
  publishPoseEstimate cfg env t s2

/-- Particles::initialPoseCallback: Gaussian distribution centered at the
message pose with the configured standard deviations, published at the
message stamp. -/
def initialPoseStep (cfg : EngineCfg) (env : PublishEnv) (msg : StampedPose) (s : EngineState) :
    EngineState × List Output :=
  initializeCommon cfg env (.gaussian msg.pose cfg.stdDevs) msg.stamp s

/-- Particles::globalLocalizationCallback: uniform distribution over the free
space of the occupancy map, published at the current time. -/
def globalLocalizationStep (cfg : EngineCfg) (env : PublishEnv) (now : Int) (s : EngineState) :
    EngineState × List Output :=
  initializeCommon cfg env .uniformMap now s

/-- Particles::initialPoseSrvCallback: Gaussian distribution centered at the
pose read from the parameter server with the configured standard deviations,
published at the current time. -/
def initialPoseSrvStep (cfg : EngineCfg) (env : PublishEnv) (now : Int) (s : EngineState) :
    EngineState × List Output :=
  initializeCommon cfg env (.gaussian cfg.paramPose cfg.stdDevs) now s

/-- The laser message as the engine bookkeeping sees it. -/
structure ScanMsg where
  stamp : Int

/-- The external inputs of one scanCallback: the odometry pose resolved at
the scan stamp (none if the lookup fails), the sensor-to-base transform
lookup outcome, and the publish-time transform chain outcome. -/
structure ScanEnv where
  odomPose : Option StampedPose
  sensorToBase : Option Correction
  worldToMap : Option Correction

/-- Which branch of scanCallback a scan took. -/
inductive ScanAction where
  | rejectedNotInitialized
  | rejectedStale
  | rejectedNoOdom
  | rejectedNoSensorTransform
  | fullFused
  | driftOnly
  | firstRunOnly
deriving DecidableEq

/-- Result of one scanCallback invocation. -/
structure ScanStepResult where
  state : EngineState
  outputs : List Output
  action : ScanAction
deriving DecidableEq

/-- The common tail of scanCallback (lines after the branch): store the
odometry pose as the last odometry pose, clear firstRun, record the laser
time, and publish a pose estimate when publishUpdated is off. -/
def finishScan (cfg : EngineCfg) (env : ScanEnv) (msg : ScanMsg) (odomPose : StampedPose)
    (s : EngineState) (outs : List Output) (act : ScanAction) : ScanStepResult :=
  let s1 := { s with lastOdomPose := odomPose, firstRun := false, lastLaserTime := msg.stamp }
  if cfg.publishUpdated then ⟨s1, outs, act⟩
  else
    let p := publishPoseEstimate cfg ⟨env.worldToMap⟩ msg.stamp s1
    ⟨p.1, outs ++ p.2, act⟩

/-- Particles::scanCallback.  Rejects when not initialized; rejects stale
scans (receivedSensorData and a negative time difference); rejects when no
odometry pose resolves.  Otherwise, unless this is the first run, computes dt
from the odometry stamps and either performs the full fused step (when no
sensor data was integrated yet or the motion gate fires): preprocess, resolve
the sensor-to-base transform (skipping the scan entirely on failure), publish
the filtered cloud, run one filter step, optionally publish, record the
localized pose — or performs only a drift step.  On the first run it only
records the localized pose.  All accepted branches then advance the odometry
bookkeeping through the common tail. -/
def scanCallback (cfg : EngineCfg) (env : ScanEnv) (msg : ScanMsg) (s : EngineState) :
    ScanStepResult :=
  if s.initialized = false then ⟨s, [], .rejectedNotInitialized⟩
  else if s.receivedSensorData = true ∧ msg.stamp - s.lastLaserTime < 0 then ⟨s, [], .rejectedStale⟩
  else
    match env.odomPose with
    | none => ⟨s, [], .rejectedNoOdom⟩
    | some odomPose =>
      if s.firstRun = false then
        let dt := odomPose.stamp - s.lastOdomPose.stamp
        if s.receivedSensorData = false ∨ cfg.gate s.lastLocalizedPose odomPose.pose = true then
          match env.sensorToBase with
          | none => ⟨s, [], .rejectedNoSensorTransform⟩
          | some _ =>
            let s1 := { s with pf := pfFilter dt s.pf }
            let p :=
              if cfg.publishUpdated then publishPoseEstimate cfg ⟨env.worldToMap⟩ msg.stamp s1
              else (s1, [])
            let s2 := { p.1 with lastLocalizedPose := odomPose.pose, receivedSensorData := true }
            finishScan cfg env msg odomPose s2 (Output.filteredCloud :: p.2) .fullFused
        else
          finishScan cfg env msg odomPose { s with pf := pfDrift dt s.pf } [] .driftOnly
      else
        finishScan cfg env msg odomPose { s with lastLocalizedPose := odomPose.pose } []
          .firstRunOnly

/-- Iterated scan callbacks, collecting the branch taken by each scan. -/
def runScans (cfg : EngineCfg) : List (ScanEnv × ScanMsg) → EngineState →
    EngineState × List ScanAction
  | [], s => (s, [])
  | (env, msg) :: rest, s =>
    let r := scanCallback cfg env msg s
    let t := runScans cfg rest r.state
    (t.1, r.action :: t.2)

/-- The engine states reachable from the constructor state through the ROS
entry points. -/
inductive Reachable (cfg : EngineCfg) : EngineState → Prop where
  | start : Reachable cfg initialState
  | scan (env : ScanEnv) (msg : ScanMsg) (s : EngineState) :
      Reachable cfg s → Reachable cfg (scanCallback cfg env msg s).state
  | initialPose (env : PublishEnv) (msg : StampedPose) (s : EngineState) :
      Reachable cfg s → Reachable cfg (initialPoseStep cfg env msg s).1
  | globalLoc (env : PublishEnv) (now : Int) (s : EngineState) :
      Reachable cfg s → Reachable cfg (globalLocalizationStep cfg env now s).1
  | initialPoseSrv (env : PublishEnv) (now : Int) (s : EngineState) :
      Reachable cfg s → Reachable cfg (initialPoseSrvStep cfg env now s).1
  | timer (now : Int) (s : EngineState) :
      Reachable cfg s → Reachable cfg (latestTransformTimerCallback cfg now s).1

/- ## Section 4: coverage module (CoverageFinder::publishWaypoints) -/

/-- An octomap::point3d sensor position recorded by findCoveredSurface. -/
structure Point3Q where
  x : ℚ
  y : ℚ
  z : ℚ
deriving DecidableEq

/-- The fields of visualization_msgs::Marker that publishWaypoints sets. -/
structure Marker where
  frame_id : String
  stamp : Int
  ns : String
  id : ℕ
  markerType : ℕ
  action : ℕ
  px : ℚ
  py : ℚ
  pz : ℚ
  ox : ℚ
  oy : ℚ
  oz : ℚ
  ow : ℚ
  sx : ℚ
  sy : ℚ
  sz : ℚ
  cr : ℚ
  cg : ℚ
  cb : ℚ
  ca : ℚ
deriving DecidableEq

/-- A default-constructed visualization_msgs::Marker (all fields
zero-initialized, strings empty), as produced by markers.resize. -/
def defaultMarker : Marker :=
  ⟨"", 0, "", 0, 0, 0, 0, 0, 0, 0, 0, 0, 0, 0, 0, 0, 0, 0, 0, 0⟩

/-- The marker the loop body of publishWaypoints builds for waypoint idx:
frame "/map", zero stamp, namespace "coverage_path_planning", CUBE (type 1),
ADD (action 0), the waypoint position, identity orientation, 0.15 scale,
opaque blue. -/
def waypointMarker (idx : ℕ) (p : Point3Q) : Marker :=
  ⟨"/map", 0, "coverage_path_planning", idx, 1, 0,
   p.x, p.y, p.z, 0, 0, 0, 1, 3/20, 3/20, 3/20, 0, 0, 1, 1⟩

/-- CoverageFinder::publishWaypoints: resizes the marker array to the number
of recorded sensor positions (default-constructed markers), then push_backs
one configured marker per position, and publishes the array. -/
def publishWaypoints (points : List Point3Q) : List Marker :=
  let markers := List.replicate points.length defaultMarker
  markers ++ (List.range points.length).map (fun idx => waypointMarker idx (points.getD idx ⟨0, 0, 0⟩))

/-- A concrete engine configuration whose motion gate never fires, used by the
concrete runs below. -/
def cfgGateOff : EngineCfg := ⟨⟨1, 1, 1, 1, 1, 1⟩, Pose6.zero, 1, true, fun _ _ => false⟩

/-- A concrete engine configuration whose motion gate always fires, used by
the concrete runs below. -/
def cfgGateOn : EngineCfg := ⟨⟨1, 1, 1, 1, 1, 1⟩, Pose6.zero, 1, true, fun _ _ => true⟩

/-- A concrete tracking state (as after an initialization and a first scan),
used by the concrete runs below. -/
def trackingState : EngineState :=
  { initialState with initialized := true, receivedSensorData := true, firstRun := false }

/-- The effects an initialization entry point has according to the amended
claim: the particle set is re-drawn from the given distribution, the
resample-on-Neff policy is selected, the libPF timer is reset, the engine
flags (initialized, receivedSensorData, firstRun) are raised, the last
localized pose is left unchanged, and a best-pose estimate is published at
the given time. -/
def InitEffects (dist : Distribution) (t : Int) (s : EngineState)
    (result : EngineState × List Output) : Prop :=
  result.1.pf = ⟨.drawnFrom dist, .neff, 0⟩ ∧
  result.1.initialized = true ∧
  result.1.receivedSensorData = true ∧
  result.1.firstRun = true ∧
  result.1.lastLocalizedPose = s.lastLocalizedPose ∧
  Output.bestPose t ∈ result.2

/-- A scan sequence whose odometry deltas all stay below both motion
thresholds relative to the reference pose p1 (the gate evaluates false on
every scan), with resolvable odometry and non-decreasing timestamps starting
from t. -/
def BelowSeq (cfg : EngineCfg) (p1 : Pose6) : Int → List (ScanEnv × ScanMsg) → Prop
  | _, [] => True
  | t, (env, msg) :: rest =>
    t ≤ msg.stamp ∧ (∃ q, env.odomPose = some q ∧ cfg.gate p1 q.pose = false) ∧
    BelowSeq cfg p1 msg.stamp rest

/-- The timestamp of the last scan of a sequence (or the given start time for
an empty sequence). -/
def lastStamp : Int → List (ScanEnv × ScanMsg) → Int
  | t, [] => t
  | _, (_, msg) :: rest => lastStamp msg.stamp rest

/-- A concrete engine configuration whose gate fires exactly when the
odometry pose has x-coordinate 1, used by the concrete C1 run. -/
def cfgGateX1 : EngineCfg :=
  ⟨⟨1, 1, 1, 1, 1, 1⟩, Pose6.zero, 1, true, fun _ q => decide (q.x = 1)⟩

/-- First concrete scan of the C1 run: time 0, odometry at the origin. -/
def scanA : ScanEnv × ScanMsg := (⟨some ⟨0, Pose6.zero⟩, none, none⟩, ⟨0⟩)

/-- Second concrete scan of the C1 run: time 1, odometry still at the origin
(below both thresholds). -/
def scanB : ScanEnv × ScanMsg := (⟨some ⟨1, Pose6.zero⟩, none, none⟩, ⟨1⟩)

/-- Third concrete scan of the C1 run: time 2, odometry moved to x = 1 (the
gate fires), sensor-to-base transform available. -/
def scanC : ScanEnv × ScanMsg := (⟨some ⟨2, ⟨1, 0, 0, 0, 0, 0⟩⟩, some .identityC, none⟩, ⟨2⟩)

/- ## Helper lemmas and the claims -/

/- ### Laser helper lemmas -/

theorem prepareBeams_eq_keptBeams (laserMin fMax am inc : ℚ) :
    ∀ (l : List ℚ) (i : ℕ),
      prepareBeams laserMin fMax am inc i l =
        ((keptBeams laserMin fMax i l).map (fun b => beamPoint (am + b.1 * inc) b.2),
         (keptBeams laserMin fMax i l).map Prod.snd) := by
  intro l
  induction l with
  | nil => intro i; simp [prepareBeams, keptBeams]
  | cons r rest ih =>
    intro i
    by_cases h : laserMin ≤ r ∧ r ≤ fMax
    · simp [prepareBeams, keptBeams, h, ih]
    · simp [prepareBeams, keptBeams, h, ih]

theorem keptBeams_map_snd (laserMin fMax : ℚ) :
    ∀ (l : List ℚ) (i : ℕ),
      (keptBeams laserMin fMax i l).map Prod.snd =
        l.filter (fun r => decide (laserMin ≤ r ∧ r ≤ fMax)) := by
  intro l
  induction l with
  | nil => intro i; simp [keptBeams]
  | cons r rest ih =>
    intro i
    by_cases h : laserMin ≤ r ∧ r ≤ fMax
    · simp [keptBeams, h, List.filter, ih]
    · simp [keptBeams, h, List.filter, ih]

theorem keptBeams_mem (laserMin fMax : ℚ) :
    ∀ (l : List ℚ) (i : ℕ) (b : ℕ × ℚ), b ∈ keptBeams laserMin fMax i l →
      ∃ k, k < l.length ∧ b.1 = i + k ∧ l.getD k 0 = b.2 ∧ laserMin ≤ b.2 ∧ b.2 ≤ fMax := by
  intro l
  induction l with
  | nil => intro i b h; simp [keptBeams] at h
  | cons r rest ih =>
    intro i b hmem
    by_cases h : laserMin ≤ r ∧ r ≤ fMax
    · simp only [keptBeams, if_pos h, List.mem_cons] at hmem
      rcases hmem with h0 | h1
      · exact ⟨0, by simp, by simp [h0], by simp [h0], by simp [h0, h.1], by simp [h0, h.2]⟩
      · obtain ⟨k, hk, hb1, hb2, hb3, hb4⟩ := ih (i + 1) b h1
        exact ⟨k + 1, by simpa using Nat.succ_lt_succ hk, by omega, by simpa using hb2, hb3, hb4⟩
    · simp only [keptBeams, if_neg h] at hmem
      obtain ⟨k, hk, hb1, hb2, hb3, hb4⟩ := ih (i + 1) b hmem
      exact ⟨k + 1, by simpa using Nat.succ_lt_succ hk, by omega, by simpa using hb2, hb3, hb4⟩

theorem publishPoseEstimate_fields (cfg : EngineCfg) (env : PublishEnv) (t : Int)
    (s : EngineState) :
    (publishPoseEstimate cfg env t s).1.initialized = s.initialized ∧
    (publishPoseEstimate cfg env t s).1.receivedSensorData = s.receivedSensorData ∧
    (publishPoseEstimate cfg env t s).1.firstRun = s.firstRun ∧
    (publishPoseEstimate cfg env t s).1.lastLaserTime = s.lastLaserTime ∧
    (publishPoseEstimate cfg env t s).1.lastLocalizedPose = s.lastLocalizedPose ∧
    (publishPoseEstimate cfg env t s).1.lastOdomPose = s.lastOdomPose ∧
    (publishPoseEstimate cfg env t s).1.pf = s.pf := by
  unfold publishPoseEstimate
  cases env.worldToMap <;> simp

theorem publishPoseEstimate_bestPose (cfg : EngineCfg) (env : PublishEnv) (t : Int)
    (s : EngineState) : Output.bestPose t ∈ (publishPoseEstimate cfg env t s).2 := by
  unfold publishPoseEstimate
  cases env.worldToMap <;> simp

theorem finishScan_fields (cfg : EngineCfg) (env : ScanEnv) (msg : ScanMsg)
    (odomPose : StampedPose) (s : EngineState) (outs : List Output) (act : ScanAction) :
    (finishScan cfg env msg odomPose s outs act).state.initialized = s.initialized ∧
    (finishScan cfg env msg odomPose s outs act).state.receivedSensorData = s.receivedSensorData ∧
    (finishScan cfg env msg odomPose s outs act).state.firstRun = false ∧
    (finishScan cfg env msg odomPose s outs act).state.lastLaserTime = msg.stamp ∧
    (finishScan cfg env msg odomPose s outs act).state.lastLocalizedPose = s.lastLocalizedPose ∧
    (finishScan cfg env msg odomPose s outs act).state.lastOdomPose = odomPose ∧
    (finishScan cfg env msg odomPose s outs act).state.pf = s.pf ∧
    (finishScan cfg env msg odomPose s outs act).action = act := by
  unfold finishScan
  by_cases h : cfg.publishUpdated = true
  · simp [h]
  · simp only [Bool.not_eq_true] at h
    have hp := publishPoseEstimate_fields cfg ⟨env.worldToMap⟩ msg.stamp
      { s with lastOdomPose := odomPose, firstRun := false, lastLaserTime := msg.stamp }
    simp [h] at hp ⊢
    tauto

theorem initializeCommon_fields (cfg : EngineCfg) (env : PublishEnv) (d : Distribution) (t : Int)
    (s : EngineState) :
    (initializeCommon cfg env d t s).1.initialized = true ∧
    (initializeCommon cfg env d t s).1.receivedSensorData = true ∧
    (initializeCommon cfg env d t s).1.firstRun = true ∧
    (initializeCommon cfg env d t s).1.pf = ⟨.drawnFrom d, .neff, 0⟩ ∧
    (initializeCommon cfg env d t s).1.lastLocalizedPose = s.lastLocalizedPose ∧
    (initializeCommon cfg env d t s).1.lastLaserTime = s.lastLaserTime ∧
    (initializeCommon cfg env d t s).1.lastOdomPose = ⟨0, Pose6.zero⟩ ∧
    Output.bestPose t ∈ (initializeCommon cfg env d t s).2 := by
  unfold initializeCommon movementModelReset pfResetTimer pfSetResamplingMode
    pfDrawAllFromDistribution publishPoseEstimate
  cases env.worldToMap <;> simp

theorem scanCallback_stale (cfg : EngineCfg) (env : ScanEnv) (msg : ScanMsg) (s : EngineState)
    (hInit : s.initialized = true) (hRSD : s.receivedSensorData = true)
    (hStale : msg.stamp - s.lastLaserTime < 0) :
    scanCallback cfg env msg s = ⟨s, [], .rejectedStale⟩ := by
  unfold scanCallback
  rw [if_neg (by simp [hInit]), if_pos ⟨hRSD, hStale⟩]

theorem scanCallback_noOdom (cfg : EngineCfg) (env : ScanEnv) (msg : ScanMsg) (s : EngineState)
    (hInit : s.initialized = true)
    (hNotStale : ¬(s.receivedSensorData = true ∧ msg.stamp - s.lastLaserTime < 0))
    (hOdom : env.odomPose = none) :
    scanCallback cfg env msg s = ⟨s, [], .rejectedNoOdom⟩ := by
  unfold scanCallback
  rw [if_neg (by simp [hInit]), if_neg hNotStale, hOdom]

theorem scanCallback_firstRun (cfg : EngineCfg) (env : ScanEnv) (msg : ScanMsg) (s : EngineState)
    (q : StampedPose) (hInit : s.initialized = true)
    (hNotStale : ¬(s.receivedSensorData = true ∧ msg.stamp - s.lastLaserTime < 0))
    (hOdom : env.odomPose = some q) (hFR : s.firstRun = true) :
    scanCallback cfg env msg s =
      finishScan cfg env msg q { s with lastLocalizedPose := q.pose } [] .firstRunOnly := by
  unfold scanCallback
  rw [if_neg (by simp [hInit]), if_neg hNotStale, hOdom]
  simp [hFR]

theorem scanCallback_drift (cfg : EngineCfg) (env : ScanEnv) (msg : ScanMsg) (s : EngineState)
    (q : StampedPose) (hInit : s.initialized = true) (hRSD : s.receivedSensorData = true)
    (hFR : s.firstRun = false) (hOdom : env.odomPose = some q)
    (hT : s.lastLaserTime ≤ msg.stamp)
    (hGate : cfg.gate s.lastLocalizedPose q.pose = false) :
    scanCallback cfg env msg s =
      finishScan cfg env msg q { s with pf := pfDrift (q.stamp - s.lastOdomPose.stamp) s.pf } []
        .driftOnly := by
  unfold scanCallback
  rw [if_neg (by simp [hInit]), if_neg (by intro hc; omega), hOdom]
  simp [hFR, hRSD, hGate]

theorem scanCallback_noSensorTransform (cfg : EngineCfg) (env : ScanEnv) (msg : ScanMsg)
    (s : EngineState) (q : StampedPose) (hInit : s.initialized = true)
    (hNotStale : ¬(s.receivedSensorData = true ∧ msg.stamp - s.lastLaserTime < 0))
    (hOdom : env.odomPose = some q) (hFR : s.firstRun = false)
    (hGate : s.receivedSensorData = false ∨ cfg.gate s.lastLocalizedPose q.pose = true)
    (hSB : env.sensorToBase = none) :
    scanCallback cfg env msg s = ⟨s, [], .rejectedNoSensorTransform⟩ := by
  unfold scanCallback
  rw [if_neg (by simp [hInit]), if_neg hNotStale, hOdom]
  rcases hGate with h | h <;> simp [hFR, h, hSB]

theorem scanCallback_full (cfg : EngineCfg) (env : ScanEnv) (msg : ScanMsg) (s : EngineState)
    (q : StampedPose) (c : Correction) (hInit : s.initialized = true)
    (hNotStale : ¬(s.receivedSensorData = true ∧ msg.stamp - s.lastLaserTime < 0))
    (hOdom : env.odomPose = some q) (hFR : s.firstRun = false)
    (hGate : s.receivedSensorData = false ∨ cfg.gate s.lastLocalizedPose q.pose = true)
    (hSB : env.sensorToBase = some c) :
    scanCallback cfg env msg s =
      (let s1 := { s with pf := pfFilter (q.stamp - s.lastOdomPose.stamp) s.pf }
       let p :=
         if cfg.publishUpdated then publishPoseEstimate cfg ⟨env.worldToMap⟩ msg.stamp s1
         else (s1, [])
       finishScan cfg env msg q
         { p.1 with lastLocalizedPose := q.pose, receivedSensorData := true }
         (Output.filteredCloud :: p.2) .fullFused) := by
  unfold scanCallback
  rw [if_neg (by simp [hInit]), if_neg hNotStale, hOdom]
  rcases hGate with h | h <;> simp [hFR, h, hSB]

theorem scanCallback_flags (cfg : EngineCfg) (env : ScanEnv) (msg : ScanMsg) (s : EngineState) :
    (scanCallback cfg env msg s).state.initialized = s.initialized ∧
    (s.receivedSensorData = true → (scanCallback cfg env msg s).state.receivedSensorData = true) := by
  by_cases hInit : s.initialized = false
  · unfold scanCallback; simp [hInit]
  simp only [Bool.not_eq_false] at hInit
  by_cases hStale : s.receivedSensorData = true ∧ msg.stamp - s.lastLaserTime < 0
  · rw [scanCallback_stale cfg env msg s hInit hStale.1 hStale.2]; simp
  cases hOdom : env.odomPose with
  | none => rw [scanCallback_noOdom cfg env msg s hInit hStale hOdom]; simp
  | some q =>
    by_cases hFR : s.firstRun = false
    · by_cases hGate : s.receivedSensorData = false ∨ cfg.gate s.lastLocalizedPose q.pose = true
      · cases hSB : env.sensorToBase with
        | none =>
          rw [scanCallback_noSensorTransform cfg env msg s q hInit hStale hOdom hFR hGate hSB]
          simp
        | some c =>
          rw [scanCallback_full cfg env msg s q c hInit hStale hOdom hFR hGate hSB]
          simp only []
          constructor
          · rw [(finishScan_fields _ _ _ _ _ _ _).1]
            by_cases hp : cfg.publishUpdated = true <;>
              simp [hp, (publishPoseEstimate_fields _ _ _ _).1]
          · intro _
            rw [(finishScan_fields _ _ _ _ _ _ _).2.1]
      · push_neg at hGate
        have hR : s.receivedSensorData = true := by simpa using hGate.1
        have hG2 : cfg.gate s.lastLocalizedPose q.pose = false := by simpa using hGate.2
        have hT : s.lastLaserTime ≤ msg.stamp := by
          rcases not_and_or.mp hStale with h | h
          · exact absurd hR h
          · omega
        rw [scanCallback_drift cfg env msg s q hInit hR hFR hOdom hT hG2]
        refine ⟨(finishScan_fields _ _ _ _ _ _ _).1, fun h => ?_⟩
        rw [(finishScan_fields _ _ _ _ _ _ _).2.1]; exact h
    · simp only [Bool.not_eq_false] at hFR
      rw [scanCallback_firstRun cfg env msg s q hInit hStale hOdom hFR]
      refine ⟨(finishScan_fields _ _ _ _ _ _ _).1, fun h => ?_⟩
      rw [(finishScan_fields _ _ _ _ _ _ _).2.1]; exact h

theorem reachable_tracking_receivedSensorData (cfg : EngineCfg) (s : EngineState)
    (h : Reachable cfg s) : s.initialized = true → s.receivedSensorData = true := by
  induction h with
  | start => intro h0; simp [initialState] at h0
  | scan env msg t hr ih =>
    intro hinit
    have hf := scanCallback_flags cfg env msg t
    rw [hf.1] at hinit
    exact hf.2 (ih hinit)
  | initialPose env msg t hr ih =>
    intro hh; exact (initializeCommon_fields cfg env _ _ _).2.1
  | globalLoc env now t hr ih =>
    intro hh; exact (initializeCommon_fields cfg env _ _ _).2.1
  | initialPoseSrv env now t hr ih =>
    intro hh; exact (initializeCommon_fields cfg env _ _ _).2.1
  | timer now t hr ih => exact ih

/-- C10: for every non-empty waypoint list of k sensor positions,
publishWaypoints publishes a marker array of 2*k markers; the first k are
default-constructed (the resize), and only the last k carry the waypoint
positions (the push_back loop), the (k+i)-th marker being the configured
cube at waypoint i. -/
theorem c10_publishWaypoints_doubled (points : List Point3Q) (h : points ≠ []) :
    (publishWaypoints points).length = 2 * points.length ∧
    (∀ i, i < points.length → (publishWaypoints points).getD i defaultMarker = defaultMarker) ∧
    (∀ i, i < points.length →
      (publishWaypoints points).getD (points.length + i) defaultMarker =
        waypointMarker i (points.getD i ⟨0, 0, 0⟩)) := by
  refine ⟨?_, ?_, ?_⟩
  · simp [publishWaypoints]; omega
  · intro i hi
    simp only [publishWaypoints]
    rw [List.getD_append _ _ _ _ (by simpa using hi), List.getD_eq_getElem?_getD]
    exact List.getElem?_getD_replicate_default_eq _ _ _
  · intro i hi
    simp only [publishWaypoints]
    rw [List.getD_append_right _ _ _ _ (by simp)]
    simp only [List.length_replicate, Nat.add_sub_cancel_left]
    rw [List.getD_eq_getElem?_getD, List.getElem?_map, List.getElem?_range hi]
    rfl

/-- C10 witness: a singleton waypoint list. -/
theorem c10_publishWaypoints_doubled_witness :
    ([(⟨1, 2, 3⟩ : Point3Q)] ≠ []) ∧
    ((publishWaypoints [⟨1, 2, 3⟩]).length = 2 * [(⟨1, 2, 3⟩ : Point3Q)].length ∧
    (∀ i, i < [(⟨1, 2, 3⟩ : Point3Q)].length →
      (publishWaypoints [⟨1, 2, 3⟩]).getD i defaultMarker = defaultMarker) ∧
    (∀ i, i < [(⟨1, 2, 3⟩ : Point3Q)].length →
      (publishWaypoints [⟨1, 2, 3⟩]).getD ([(⟨1, 2, 3⟩ : Point3Q)].length + i) defaultMarker =
        waypointMarker i ([(⟨1, 2, 3⟩ : Point3Q)].getD i ⟨0, 0, 0⟩))) :=
  ⟨by simp, c10_publishWaypoints_doubled [⟨1, 2, 3⟩] (by simp)⟩

/-- C2: for every input scan the preprocessor retains exactly the beams whose
range lies in the closed interval [max(sensorMinRange, filterMinRange),
filterMaxRange] (first conjunct: the retained ranges are the filter of the
input ranges; second conjunct: the retained points are the in-range beams
converted via angle = angle_min + index * angle_increment); and on the scan
with ranges [0.02, 5.0, 15.0, 3.0], range_min = 0.05 and filterMaxRange = 14
exactly the 5.0 and 3.0 entries are retained, converted at beam angles 1 and 3
(third conjunct, with angle_min = 0 and angle_increment = 1). -/
theorem c2_laser_filter_exact (cfg : LaserCfg) (scan : LaserScanMsg) :
    ((prepareFiltered cfg scan).2 =
      scan.ranges.filter
        (fun r => decide (max scan.range_min cfg.filterMinRange ≤ r ∧ r ≤ cfg.filterMaxRange))) ∧
    ((prepareFiltered cfg scan).1 =
      (keptBeams (max scan.range_min cfg.filterMinRange) cfg.filterMaxRange 0 scan.ranges).map
        (fun b => beamPoint (scan.angle_min + b.1 * scan.angle_increment) b.2)) ∧
    (prepareFiltered ⟨1/20, 14⟩ ⟨0, 1, 1/20, [1/50, 5, 15, 3]⟩ =
      ([beamPoint 1 5, beamPoint 3 3], [5, 3])) := by
  refine ⟨?_, ?_, ?_⟩
  · rw [prepareFiltered, prepareBeams_eq_keptBeams, keptBeams_map_snd]
  · rw [prepareFiltered, prepareBeams_eq_keptBeams]
  · unfold prepareFiltered
    norm_num [prepareBeams]

/-- C8: after downsampling, the retained-range sequence is index-aligned with
the retained-point sequence: both outputs have the same length, and for every
index k the k-th range is the range of the beam (some in-bounds beamId of the
input scan) that produced the k-th retained point. -/
theorem getD_map_of_lt {A B : Type} (f : A → B) (l : List A) (n : ℕ) (d : B) (d0 : A)
    (h : n < l.length) : (l.map f).getD n d = f (l.getD n d0) := by
  rw [List.getD_eq_getElem _ _ (by simpa using h), List.getElem_map,
    List.getD_eq_getElem _ _ h]

theorem getD_mem_of_lt {A : Type} (l : List A) (n : ℕ) (d : A) (h : n < l.length) :
    l.getD n d ∈ l := by
  rw [List.getD_eq_getElem _ _ h]
  exact List.getElem_mem h

/-- C8: after downsampling, the retained-range sequence is index-aligned with
the retained-point sequence: both outputs have the same length, and for every
index k the k-th range is the range of the beam (some in-bounds beamId of the
input scan) that produced the k-th retained point. -/
theorem c8_downsample_alignment (cfg : LaserCfg) (scan : LaserScanMsg) (idxs : List ℕ)
    (hvalid : ∀ i ∈ idxs, i < (prepareFiltered cfg scan).2.length) :
    ((prepareLaserPointCloud cfg scan idxs).1.length =
      (prepareLaserPointCloud cfg scan idxs).2.length) ∧
    ∀ k, k < (prepareLaserPointCloud cfg scan idxs).1.length →
      ∃ beamId, beamId < scan.ranges.length ∧
        scan.ranges.getD beamId 0 = (prepareLaserPointCloud cfg scan idxs).2.getD k 0 ∧
        (prepareLaserPointCloud cfg scan idxs).1.getD k ⟨0, 0, 0⟩ =
          beamPoint (scan.angle_min + beamId * scan.angle_increment)
            ((prepareLaserPointCloud cfg scan idxs).2.getD k 0) := by
  have hsplit := prepareBeams_eq_keptBeams (max scan.range_min cfg.filterMinRange)
    cfg.filterMaxRange scan.angle_min scan.angle_increment scan.ranges 0
  set kb := keptBeams (max scan.range_min cfg.filterMinRange) cfg.filterMaxRange 0 scan.ranges
    with hkb
  constructor
  · simp [prepareLaserPointCloud, downsampleRetain]
  intro k hk
  have hkl : k < idxs.length := by
    simpa [prepareLaserPointCloud, downsampleRetain] using hk
  have hjmem : idxs.getD k 0 ∈ idxs := getD_mem_of_lt idxs k 0 hkl
  have hjlen : idxs.getD k 0 < (prepareFiltered cfg scan).2.length := hvalid _ hjmem
  have hjkb : idxs.getD k 0 < kb.length := by
    rw [prepareFiltered, hsplit] at hjlen
    simpa using hjlen
  have hbmem : kb.getD (idxs.getD k 0) (0, 0) ∈ kb := getD_mem_of_lt kb _ (0, 0) hjkb
  obtain ⟨kk, hkk, hfst, hsnd, _, _⟩ :=
    keptBeams_mem (max scan.range_min cfg.filterMinRange) cfg.filterMaxRange scan.ranges 0
      (kb.getD (idxs.getD k 0) (0, 0)) (by rw [hkb] at hbmem; exact hbmem)
  have h2 : (prepareLaserPointCloud cfg scan idxs).2.getD k 0 =
      (kb.getD (idxs.getD k 0) (0, 0)).2 := by
    simp only [prepareLaserPointCloud, downsampleRetain, prepareFiltered, hsplit]
    rw [getD_map_of_lt _ idxs k _ 0 hkl, getD_map_of_lt _ kb _ _ (0, 0) hjkb]
  have h1 : (prepareLaserPointCloud cfg scan idxs).1.getD k ⟨0, 0, 0⟩ =
      beamPoint (scan.angle_min + (kb.getD (idxs.getD k 0) (0, 0)).1 * scan.angle_increment)
        (kb.getD (idxs.getD k 0) (0, 0)).2 := by
    simp only [prepareLaserPointCloud, downsampleRetain, prepareFiltered, hsplit]
    rw [getD_map_of_lt _ idxs k _ 0 hkl, getD_map_of_lt _ kb _ _ (0, 0) hjkb]
  refine ⟨kk, hkk, ?_, ?_⟩
  · rw [h2, hsnd]
  · rw [h1, h2, hfst]
    norm_num

/-- C8 witness: the concrete scan [2, 9, 3] with bounds [1, 5] keeps beams
0 and 2, and the sampled index list [1, 0] selects them in swapped order. -/
theorem c8_downsample_alignment_witness :
    (∀ i ∈ [1, 0], i < (prepareFiltered ⟨1, 5⟩ ⟨0, 1, 1, [2, 9, 3]⟩).2.length) ∧
    (((prepareLaserPointCloud ⟨1, 5⟩ ⟨0, 1, 1, [2, 9, 3]⟩ [1, 0]).1.length =
      (prepareLaserPointCloud ⟨1, 5⟩ ⟨0, 1, 1, [2, 9, 3]⟩ [1, 0]).2.length) ∧
    ∀ k, k < (prepareLaserPointCloud ⟨1, 5⟩ ⟨0, 1, 1, [2, 9, 3]⟩ [1, 0]).1.length →
      ∃ beamId, beamId < (3 : ℕ) ∧
        ([2, 9, 3] : List ℚ).getD beamId 0 =
          (prepareLaserPointCloud ⟨1, 5⟩ ⟨0, 1, 1, [2, 9, 3]⟩ [1, 0]).2.getD k 0 ∧
        (prepareLaserPointCloud ⟨1, 5⟩ ⟨0, 1, 1, [2, 9, 3]⟩ [1, 0]).1.getD k ⟨0, 0, 0⟩ =
          beamPoint (0 + beamId * 1)
            ((prepareLaserPointCloud ⟨1, 5⟩ ⟨0, 1, 1, [2, 9, 3]⟩ [1, 0]).2.getD k 0)) := by
  have hv : ∀ i ∈ [1, 0], i < (prepareFiltered ⟨1, 5⟩ ⟨0, 1, 1, [2, 9, 3]⟩).2.length := by
    have : (prepareFiltered ⟨1, 5⟩ ⟨0, 1, 1, [2, 9, 3]⟩).2 = [2, 3] := by
      norm_num [prepareFiltered, prepareBeams]
    rw [this]
    simp
  exact ⟨hv, c8_downsample_alignment ⟨1, 5⟩ ⟨0, 1, 1, [2, 9, 3]⟩ [1, 0] hv⟩

/-- C6: while TRACKING (any reachable state with the initialized flag set), a
scan whose timestamp is strictly older than the previously processed scan is
rejected and causes no state change whatsoever: the returned state is the
input state (so the particle set, last odometry pose, last localized pose and
last laser time are all unchanged) and nothing is published. -/
theorem c6_stale_scan_rejected (cfg : EngineCfg) (s : EngineState) (env : ScanEnv)
    (msg : ScanMsg) (hreach : Reachable cfg s) (hinit : s.initialized = true)
    (holder : msg.stamp < s.lastLaserTime) :
    scanCallback cfg env msg s = ⟨s, [], .rejectedStale⟩ :=
  scanCallback_stale cfg env msg s hinit
    (reachable_tracking_receivedSensorData cfg s hreach hinit) (by omega)

/-- C6 witness: the state reached by a global localization from the
constructor state, fed a scan stamped -1 (older than the initial zero). -/
theorem c6_stale_scan_rejected_witness :
    (Reachable cfgGateOff (globalLocalizationStep cfgGateOff ⟨none⟩ 0 initialState).1 ∧
     (globalLocalizationStep cfgGateOff ⟨none⟩ 0 initialState).1.initialized = true ∧
     (-1 : Int) < (globalLocalizationStep cfgGateOff ⟨none⟩ 0 initialState).1.lastLaserTime) ∧
    scanCallback cfgGateOff ⟨none, none, none⟩ ⟨-1⟩
        (globalLocalizationStep cfgGateOff ⟨none⟩ 0 initialState).1 =
      ⟨(globalLocalizationStep cfgGateOff ⟨none⟩ 0 initialState).1, [], .rejectedStale⟩ :=
  ⟨⟨Reachable.globalLoc ⟨none⟩ 0 initialState Reachable.start, by decide, by decide⟩,
   c6_stale_scan_rejected cfgGateOff _ ⟨none, none, none⟩ ⟨-1⟩
     (Reachable.globalLoc ⟨none⟩ 0 initialState Reachable.start) (by decide) (by decide)⟩

/-- C5: every transform-resolution failure degrades to a skip that leaves the
localization state unchanged.  First conjunct: when the sensor-to-base lookup
fails during a full scan step, the scan callback returns the input state
untouched (particle set, last localized pose, stored correction included) and
publishes nothing.  Second conjunct: when the frame chain needed for the
map-to-world correction cannot be resolved, publishPoseEstimate returns the
state untouched and only the pose publications happen — no correction
broadcast.  Third conjunct: the periodic timer keeps re-broadcasting the
previously stored correction unchanged.  All three operations return normally
(no failure is fatal in the embedding, which is total). -/
theorem c5_transform_failure_skips (cfg : EngineCfg) (env : ScanEnv) (msg : ScanMsg)
    (s sp : EngineState) (penv : PublishEnv) (t now : Int) (q : StampedPose)
    (hInit : s.initialized = true)
    (hNotStale : ¬(s.receivedSensorData = true ∧ msg.stamp - s.lastLaserTime < 0))
    (hOdom : env.odomPose = some q) (hFR : s.firstRun = false)
    (hGate : s.receivedSensorData = false ∨ cfg.gate s.lastLocalizedPose q.pose = true)
    (hSB : env.sensorToBase = none) (hWM : penv.worldToMap = none) :
    scanCallback cfg env msg s = ⟨s, [], .rejectedNoSensorTransform⟩ ∧
    publishPoseEstimate cfg penv t sp = (sp, [.poseArray t, .bestPose t]) ∧
    latestTransformTimerCallback cfg now sp =
      (sp, [.correction sp.latestTransform (now + cfg.transformTolerance)]) := by
  refine ⟨scanCallback_noSensorTransform cfg env msg s q hInit hNotStale hOdom hFR hGate hSB,
    ?_, rfl⟩
  unfold publishPoseEstimate
  rw [hWM]

/-- C5 witness: a tracking state with the gate firing and both transform
lookups failing. -/
theorem c5_transform_failure_skips_witness :
    (trackingState.initialized = true ∧
     ¬(trackingState.receivedSensorData = true ∧
       (1 : Int) - trackingState.lastLaserTime < 0)) ∧
    scanCallback cfgGateOn ⟨some ⟨1, Pose6.zero⟩, none, none⟩ ⟨1⟩ trackingState =
      ⟨trackingState, [], .rejectedNoSensorTransform⟩ ∧
    publishPoseEstimate cfgGateOn ⟨none⟩ 0 initialState =
      (initialState, [.poseArray 0, .bestPose 0]) ∧
    latestTransformTimerCallback cfgGateOn 0 initialState =
      (initialState,
        [.correction initialState.latestTransform (0 + cfgGateOn.transformTolerance)]) := by
  refine ⟨⟨rfl, by decide⟩, ?_⟩
  exact c5_transform_failure_skips cfgGateOn ⟨some ⟨1, Pose6.zero⟩, none, none⟩ ⟨1⟩
    trackingState initialState ⟨none⟩ 0 0 ⟨1, Pose6.zero⟩ rfl (by decide) rfl rfl (Or.inr rfl) rfl rfl

/-- C4 counterexample: a scan that passes all three rejection checks
(initialized, not stale, odometry resolvable) but whose sensor-to-base lookup
fails leaves the stored last odometry pose unchanged instead of advancing it
to the current odometry pose, refuting the claim that the pose is advanced
regardless of the branch taken. -/
theorem c4_counterexample :
    (trackingState.initialized = true ∧
     ¬(trackingState.receivedSensorData = true ∧
       (1 : Int) - trackingState.lastLaserTime < 0) ∧
     (ScanEnv.mk (some ⟨1, ⟨5, 0, 0, 0, 0, 0⟩⟩) none none).odomPose =
       some ⟨1, ⟨5, 0, 0, 0, 0, 0⟩⟩) ∧
    (scanCallback cfgGateOn ⟨some ⟨1, ⟨5, 0, 0, 0, 0, 0⟩⟩, none, none⟩ ⟨1⟩
        trackingState).state.lastOdomPose ≠ ⟨1, ⟨5, 0, 0, 0, 0, 0⟩⟩ := by
  decide

/-- C4 amended: for every scan that passes the rejection checks, the callback
advances the stored last odometry pose to the current odometry pose before
returning in the first-run, drift-only and full fused branches; the one
exception is the full branch whose sensor-to-base transform lookup fails, in
which case the scan is skipped entirely and the whole state (the last
odometry pose included) is left unchanged. -/
theorem c4_lastOdomPose_advance (cfg : EngineCfg) (env : ScanEnv) (msg : ScanMsg)
    (s : EngineState) (q : StampedPose) (hInit : s.initialized = true)
    (hNotStale : ¬(s.receivedSensorData = true ∧ msg.stamp - s.lastLaserTime < 0))
    (hOdom : env.odomPose = some q) :
    ((scanCallback cfg env msg s).action ≠ .rejectedNoSensorTransform →
      (scanCallback cfg env msg s).state.lastOdomPose = q) ∧
    ((scanCallback cfg env msg s).action = .rejectedNoSensorTransform →
      (scanCallback cfg env msg s).state = s) := by
  by_cases hFR : s.firstRun = false
  · by_cases hGate : s.receivedSensorData = false ∨ cfg.gate s.lastLocalizedPose q.pose = true
    · cases hSB : env.sensorToBase with
      | none =>
        rw [scanCallback_noSensorTransform cfg env msg s q hInit hNotStale hOdom hFR hGate hSB]
        exact ⟨fun hne => absurd rfl hne, fun _ => rfl⟩
      | some c =>
        rw [scanCallback_full cfg env msg s q c hInit hNotStale hOdom hFR hGate hSB]
        simp only []
        constructor
        · intro _
          exact (finishScan_fields _ _ _ _ _ _ _).2.2.2.2.2.1
        · intro hact
          rw [(finishScan_fields _ _ _ _ _ _ _).2.2.2.2.2.2.2] at hact
          exact absurd hact (by decide)
    · push_neg at hGate
      have hR : s.receivedSensorData = true := by simpa using hGate.1
      have hG2 : cfg.gate s.lastLocalizedPose q.pose = false := by simpa using hGate.2
      have hT : s.lastLaserTime ≤ msg.stamp := by
        rcases not_and_or.mp hNotStale with h | h
        · exact absurd hR h
        · omega
      rw [scanCallback_drift cfg env msg s q hInit hR hFR hOdom hT hG2]
      constructor
      · intro _
        exact (finishScan_fields _ _ _ _ _ _ _).2.2.2.2.2.1
      · intro hact
        rw [(finishScan_fields _ _ _ _ _ _ _).2.2.2.2.2.2.2] at hact
        exact absurd hact (by decide)
  · simp only [Bool.not_eq_false] at hFR
    rw [scanCallback_firstRun cfg env msg s q hInit hNotStale hOdom hFR]
    constructor
    · intro _
      exact (finishScan_fields _ _ _ _ _ _ _).2.2.2.2.2.1
    · intro hact
      rw [(finishScan_fields _ _ _ _ _ _ _).2.2.2.2.2.2.2] at hact
      exact absurd hact (by decide)

/-- C4 witness: a drift-branch scan advances the last odometry pose. -/
theorem c4_lastOdomPose_advance_witness :
    (trackingState.initialized = true ∧
     ¬(trackingState.receivedSensorData = true ∧
       (1 : Int) - trackingState.lastLaserTime < 0) ∧
     (ScanEnv.mk (some ⟨1, Pose6.zero⟩) none none).odomPose = some ⟨1, Pose6.zero⟩) ∧
    (((scanCallback cfgGateOff ⟨some ⟨1, Pose6.zero⟩, none, none⟩ ⟨1⟩
        trackingState).action ≠ .rejectedNoSensorTransform →
      (scanCallback cfgGateOff ⟨some ⟨1, Pose6.zero⟩, none, none⟩ ⟨1⟩
        trackingState).state.lastOdomPose = ⟨1, Pose6.zero⟩) ∧
    ((scanCallback cfgGateOff ⟨some ⟨1, Pose6.zero⟩, none, none⟩ ⟨1⟩
        trackingState).action = .rejectedNoSensorTransform →
      (scanCallback cfgGateOff ⟨some ⟨1, Pose6.zero⟩, none, none⟩ ⟨1⟩
        trackingState).state = trackingState)) :=
  ⟨⟨rfl, by decide, rfl⟩,
   c4_lastOdomPose_advance cfgGateOff ⟨some ⟨1, Pose6.zero⟩, none, none⟩ ⟨1⟩
     trackingState ⟨1, Pose6.zero⟩ rfl (by decide) rfl⟩

/-- C9: a global localization initialization immediately followed by a scan
callback before any motion does not crash (the embedding is total and the
scan takes the ordinary first-run branch) and the two-step trace publishes a
pose estimate: the initialization itself publishes one, so the combined
output trace always contains a best-pose estimate. -/
theorem c9_globalLoc_then_scan (cfg : EngineCfg) (envP : PublishEnv) (envS : ScanEnv)
    (msg : ScanMsg) (now : Int) (s0 : EngineState) (q : StampedPose)
    (hOdom : envS.odomPose = some q) (hT : s0.lastLaserTime ≤ msg.stamp) :
    Output.bestPose now ∈ (globalLocalizationStep cfg envP now s0).2 ∧
    (scanCallback cfg envS msg (globalLocalizationStep cfg envP now s0).1).action =
      .firstRunOnly ∧
    (∃ t, Output.bestPose t ∈
      (globalLocalizationStep cfg envP now s0).2 ++
        (scanCallback cfg envS msg (globalLocalizationStep cfg envP now s0).1).outputs) := by
  have hf := initializeCommon_fields cfg envP Distribution.uniformMap now s0
  have hNotStale : ¬((globalLocalizationStep cfg envP now s0).1.receivedSensorData = true ∧
      msg.stamp - (globalLocalizationStep cfg envP now s0).1.lastLaserTime < 0) := by
    intro hc
    rw [show (globalLocalizationStep cfg envP now s0).1.lastLaserTime = s0.lastLaserTime
      from hf.2.2.2.2.2.1] at hc
    omega
  have hstep := scanCallback_firstRun cfg envS msg (globalLocalizationStep cfg envP now s0).1 q
    hf.1 hNotStale hOdom hf.2.2.1
  refine ⟨hf.2.2.2.2.2.2.2, ?_, ⟨now, List.mem_append_left _ hf.2.2.2.2.2.2.2⟩⟩
  rw [hstep]
  exact (finishScan_fields _ _ _ _ _ _ _).2.2.2.2.2.2.2

/-- C9 witness: the constructor state, a global localization, then a scan at
time zero with an available odometry pose. -/
theorem c9_globalLoc_then_scan_witness :
    ((ScanEnv.mk (some ⟨0, Pose6.zero⟩) none none).odomPose = some ⟨0, Pose6.zero⟩ ∧
     initialState.lastLaserTime ≤ (0 : Int)) ∧
    (Output.bestPose 0 ∈ (globalLocalizationStep cfgGateOff ⟨none⟩ 0 initialState).2 ∧
    (scanCallback cfgGateOff ⟨some ⟨0, Pose6.zero⟩, none, none⟩ ⟨0⟩
        (globalLocalizationStep cfgGateOff ⟨none⟩ 0 initialState).1).action = .firstRunOnly ∧
    (∃ t, Output.bestPose t ∈
      (globalLocalizationStep cfgGateOff ⟨none⟩ 0 initialState).2 ++
        (scanCallback cfgGateOff ⟨some ⟨0, Pose6.zero⟩, none, none⟩ ⟨0⟩
          (globalLocalizationStep cfgGateOff ⟨none⟩ 0 initialState).1).outputs)) :=
  ⟨⟨rfl, by decide⟩,
   c9_globalLoc_then_scan cfgGateOff ⟨none⟩ ⟨some ⟨0, Pose6.zero⟩, none, none⟩ ⟨0⟩ 0
     initialState ⟨0, Pose6.zero⟩ rfl (by decide)⟩

/-- C3 counterexample: the last localized pose is not reset by an
initialization entry point — after a global localization from a state whose
last localized pose is (1,2,3,0,0,0), the field still holds (1,2,3,0,0,0)
rather than any reset value. -/
theorem c3_counterexample :
    (globalLocalizationStep cfgGateOff ⟨none⟩ 0
        { initialState with lastLocalizedPose := ⟨1, 2, 3, 0, 0, 0⟩ }).1.lastLocalizedPose =
      ⟨1, 2, 3, 0, 0, 0⟩ ∧
    (⟨1, 2, 3, 0, 0, 0⟩ : Pose6) ≠ Pose6.zero := by
  decide

/-- C3 amended: each of the three initialization entry points re-seeds the
particle set from its distribution (Gaussian at the message pose, uniform
over the map, Gaussian at the parameter pose), selects the resample-on-Neff
policy, resets the filter's internal timer, and immediately publishes a pose
estimate; the last localized pose is not reset but left unchanged — instead
the raised first-run flag makes the next accepted scan overwrite it with the
current odometry pose before any motion-threshold comparison (last
conjunct). -/
theorem c3_initialization_effects (cfg : EngineCfg) (env : PublishEnv) (msg : StampedPose)
    (now : Int) (s : EngineState) :
    InitEffects (.gaussian msg.pose cfg.stdDevs) msg.stamp s (initialPoseStep cfg env msg s) ∧
    InitEffects .uniformMap now s (globalLocalizationStep cfg env now s) ∧
    InitEffects (.gaussian cfg.paramPose cfg.stdDevs) now s (initialPoseSrvStep cfg env now s) ∧
    (∀ (s2 : EngineState) (env2 : ScanEnv) (msg2 : ScanMsg) (q : StampedPose),
      s2.initialized = true → s2.firstRun = true → env2.odomPose = some q →
      ¬(s2.receivedSensorData = true ∧ msg2.stamp - s2.lastLaserTime < 0) →
      (scanCallback cfg env2 msg2 s2).state.lastLocalizedPose = q.pose) := by
  refine ⟨?_, ?_, ?_, ?_⟩
  · have hf := initializeCommon_fields cfg env (.gaussian msg.pose cfg.stdDevs) msg.stamp s
    exact ⟨hf.2.2.2.1, hf.1, hf.2.1, hf.2.2.1, hf.2.2.2.2.1, hf.2.2.2.2.2.2.2⟩
  · have hf := initializeCommon_fields cfg env .uniformMap now s
    exact ⟨hf.2.2.2.1, hf.1, hf.2.1, hf.2.2.1, hf.2.2.2.2.1, hf.2.2.2.2.2.2.2⟩
  · have hf := initializeCommon_fields cfg env (.gaussian cfg.paramPose cfg.stdDevs) now s
    exact ⟨hf.2.2.2.1, hf.1, hf.2.1, hf.2.2.1, hf.2.2.2.2.1, hf.2.2.2.2.2.2.2⟩
  · intro s2 env2 msg2 q h1 h2 h3 h4
    rw [scanCallback_firstRun cfg env2 msg2 s2 q h1 h4 h3 h2]
    exact (finishScan_fields _ _ _ _ _ _ _).2.2.2.2.1

/-- C3 witness: the three entry points applied to the constructor state at
time zero, and a first scan overwriting the last localized pose. -/
theorem c3_initialization_effects_witness :
    (InitEffects (.gaussian Pose6.zero cfgGateOff.stdDevs) 0 initialState
      (initialPoseStep cfgGateOff ⟨none⟩ ⟨0, Pose6.zero⟩ initialState) ∧
     InitEffects .uniformMap 0 initialState
      (globalLocalizationStep cfgGateOff ⟨none⟩ 0 initialState) ∧
     InitEffects (.gaussian cfgGateOff.paramPose cfgGateOff.stdDevs) 0 initialState
      (initialPoseSrvStep cfgGateOff ⟨none⟩ 0 initialState)) ∧
    ((globalLocalizationStep cfgGateOff ⟨none⟩ 0 initialState).1.initialized = true ∧
     (globalLocalizationStep cfgGateOff ⟨none⟩ 0 initialState).1.firstRun = true ∧
     ¬((globalLocalizationStep cfgGateOff ⟨none⟩ 0 initialState).1.receivedSensorData = true ∧
       (0 : Int) - (globalLocalizationStep cfgGateOff ⟨none⟩ 0
         initialState).1.lastLaserTime < 0)) ∧
    (scanCallback cfgGateOff ⟨some ⟨0, ⟨7, 0, 0, 0, 0, 0⟩⟩, none, none⟩ ⟨0⟩
        (globalLocalizationStep cfgGateOff ⟨none⟩ 0 initialState).1).state.lastLocalizedPose =
      ⟨7, 0, 0, 0, 0, 0⟩ := by
  have hc := c3_initialization_effects cfgGateOff ⟨none⟩ ⟨0, Pose6.zero⟩ 0 initialState
  exact ⟨⟨hc.1, hc.2.1, hc.2.2.1⟩, ⟨by decide, by decide, by decide⟩,
    hc.2.2.2 _ ⟨some ⟨0, ⟨7, 0, 0, 0, 0, 0⟩⟩, none, none⟩ ⟨0⟩ ⟨0, ⟨7, 0, 0, 0, 0, 0⟩⟩
      (by decide) (by decide) rfl (by decide)⟩

theorem runScans_append (cfg : EngineCfg) (l1 l2 : List (ScanEnv × ScanMsg)) :
    ∀ s : EngineState,
      runScans cfg (l1 ++ l2) s =
        ((runScans cfg l2 (runScans cfg l1 s).1).1,
         (runScans cfg l1 s).2 ++ (runScans cfg l2 (runScans cfg l1 s).1).2) := by
  induction l1 with
  | nil => intro s; simp [runScans]
  | cons a rest ih =>
    intro s
    obtain ⟨env, msg⟩ := a
    simp [runScans, ih]

theorem runScans_below (cfg : EngineCfg) (p1 : Pose6) :
    ∀ (inputs : List (ScanEnv × ScanMsg)) (s : EngineState),
      s.initialized = true → s.receivedSensorData = true → s.firstRun = false →
      s.lastLocalizedPose = p1 →
      BelowSeq cfg p1 s.lastLaserTime inputs →
      (runScans cfg inputs s).2 = List.replicate inputs.length .driftOnly ∧
      (runScans cfg inputs s).1.initialized = true ∧
      (runScans cfg inputs s).1.receivedSensorData = true ∧
      (runScans cfg inputs s).1.firstRun = false ∧
      (runScans cfg inputs s).1.lastLocalizedPose = p1 ∧
      (runScans cfg inputs s).1.lastLaserTime = lastStamp s.lastLaserTime inputs := by
  intro inputs
  induction inputs with
  | nil =>
    intro s h1 h2 h3 h4 _
    exact ⟨rfl, h1, h2, h3, h4, rfl⟩
  | cons a rest ih =>
    intro s h1 h2 h3 h4 h5
    obtain ⟨env, msg⟩ := a
    obtain ⟨ht, ⟨q, hq, hg⟩, hrest⟩ := h5
    have hg2 : cfg.gate s.lastLocalizedPose q.pose = false := by rw [h4]; exact hg
    have hstep := scanCallback_drift cfg env msg s q h1 h2 h3 hq ht hg2
    have hf := finishScan_fields cfg env msg q
      { s with pf := pfDrift (q.stamp - s.lastOdomPose.stamp) s.pf } [] .driftOnly
    have hih := ih (scanCallback cfg env msg s).state
      (by rw [hstep]; exact hf.1.trans h1)
      (by rw [hstep]; exact hf.2.1.trans h2)
      (by rw [hstep]; exact hf.2.2.1)
      (by rw [hstep]; exact hf.2.2.2.2.1.trans h4)
      (by rw [hstep, hf.2.2.2.1]; exact hrest)
    have hact : (scanCallback cfg env msg s).action = .driftOnly := by
      rw [hstep]; exact hf.2.2.2.2.2.2.2
    refine ⟨?_, hih.2.1, hih.2.2.1, hih.2.2.2.1, hih.2.2.2.2.1, ?_⟩
    · simp only [runScans, hih.1, hact, List.length_cons, List.replicate]
    · simp only [runScans, lastStamp]
      rw [hih.2.2.2.2.2]
      rw [hstep, hf.2.2.2.1]

/-- C1 counterexample: after a global localization, a concrete run of two
scans whose deltas stay below both thresholds (the gate never fires) yields
the branch trace [firstRunOnly, driftOnly]: the first scan after the
initialization takes the first-run bookkeeping branch, not the full fused
update the claim requires. -/
theorem c1_counterexample :
    (runScans cfgGateOff
        [(⟨some ⟨0, Pose6.zero⟩, none, none⟩, ⟨0⟩),
         (⟨some ⟨1, Pose6.zero⟩, none, none⟩, ⟨1⟩)]
        (globalLocalizationStep cfgGateOff ⟨none⟩ 0 initialState).1).2 =
      [.firstRunOnly, .driftOnly] ∧
    ScanAction.firstRunOnly ≠ ScanAction.fullFused := by
  decide

/-- C1 amended: for a sequence of accepted scans after an initialization
event whose odometry deltas stay below both thresholds, the first scan
triggers only the first-run bookkeeping branch (no fused update and no
drift), every subsequent scan of the sequence triggers only a drift step, and
the first scan whose delta exceeds a threshold (the gate fires) triggers the
full fused update. -/
theorem c1_motion_gate_trace (cfg : EngineCfg) (s0 : EngineState) (env1 envF : ScanEnv)
    (msg1 msgF : ScanMsg) (rest : List (ScanEnv × ScanMsg)) (p1 qF : StampedPose)
    (c : Correction) (hInit : s0.initialized = true) (hRSD : s0.receivedSensorData = true)
    (hFR : s0.firstRun = true) (hOdom1 : env1.odomPose = some p1)
    (hT1 : s0.lastLaserTime ≤ msg1.stamp) (hBelow : BelowSeq cfg p1.pose msg1.stamp rest)
    (hOdomF : envF.odomPose = some qF) (hGateF : cfg.gate p1.pose qF.pose = true)
    (hSBF : envF.sensorToBase = some c) (hTF : lastStamp msg1.stamp rest ≤ msgF.stamp) :
    (runScans cfg ((env1, msg1) :: (rest ++ [(envF, msgF)])) s0).2 =
      .firstRunOnly :: (List.replicate rest.length .driftOnly ++ [.fullFused]) := by
  have hNotStale1 : ¬(s0.receivedSensorData = true ∧ msg1.stamp - s0.lastLaserTime < 0) := by
    intro hc; omega
  have hstep1 := scanCallback_firstRun cfg env1 msg1 s0 p1 hInit hNotStale1 hOdom1 hFR
  have hf1 := finishScan_fields cfg env1 msg1 p1 { s0 with lastLocalizedPose := p1.pose } []
    .firstRunOnly
  set s1 := (scanCallback cfg env1 msg1 s0).state with hs1
  have h1i : s1.initialized = true := by rw [hs1, hstep1]; exact hf1.1.trans hInit
  have h1r : s1.receivedSensorData = true := by rw [hs1, hstep1]; exact hf1.2.1.trans hRSD
  have h1f : s1.firstRun = false := by rw [hs1, hstep1]; exact hf1.2.2.1
  have h1p : s1.lastLocalizedPose = p1.pose := by rw [hs1, hstep1]; exact hf1.2.2.2.2.1
  have h1t : s1.lastLaserTime = msg1.stamp := by rw [hs1, hstep1]; exact hf1.2.2.2.1
  have hbelow1 : BelowSeq cfg p1.pose s1.lastLaserTime rest := by rw [h1t]; exact hBelow
  have hmid := runScans_below cfg p1.pose rest s1 h1i h1r h1f h1p hbelow1
  set sM := (runScans cfg rest s1).1 with hsM
  have hMt : sM.lastLaserTime = lastStamp msg1.stamp rest := by
    rw [hsM, hmid.2.2.2.2.2, h1t]
  have hNotStaleF : ¬(sM.receivedSensorData = true ∧ msgF.stamp - sM.lastLaserTime < 0) := by
    intro hc; rw [hMt] at hc; omega
  have hgF : sM.receivedSensorData = false ∨ cfg.gate sM.lastLocalizedPose qF.pose = true := by
    right; rw [hmid.2.2.2.2.1]; exact hGateF
  have hstepF := scanCallback_full cfg envF msgF sM qF c hmid.2.1 hNotStaleF hOdomF
    hmid.2.2.2.1 hgF hSBF
  have hactF : (scanCallback cfg envF msgF sM).action = .fullFused := by
    rw [hstepF]
    exact (finishScan_fields _ _ _ _ _ _ _).2.2.2.2.2.2.2
  have hact1 : (scanCallback cfg env1 msg1 s0).action = .firstRunOnly := by
    rw [hstep1]; exact hf1.2.2.2.2.2.2.2
  show ((scanCallback cfg env1 msg1 s0).action ::
      (runScans cfg (rest ++ [(envF, msgF)]) s1).2) = _
  rw [runScans_append cfg rest [(envF, msgF)] s1, hact1]
  show _ :: ((runScans cfg rest s1).2 ++
      ((scanCallback cfg envF msgF sM).action ::
        (runScans cfg [] (scanCallback cfg envF msgF sM).state).2)) = _
  rw [hmid.1, hactF]
  rfl

/-- C1 witness: after a global localization, a first scan, one below-threshold
scan, then a scan whose delta fires the gate. -/
theorem c1_motion_gate_trace_witness :
    ((globalLocalizationStep cfgGateX1 ⟨none⟩ 0 initialState).1.initialized = true ∧
     (globalLocalizationStep cfgGateX1 ⟨none⟩ 0 initialState).1.receivedSensorData = true ∧
     (globalLocalizationStep cfgGateX1 ⟨none⟩ 0 initialState).1.firstRun = true ∧
     (globalLocalizationStep cfgGateX1 ⟨none⟩ 0 initialState).1.lastLaserTime ≤ scanA.2.stamp ∧
     BelowSeq cfgGateX1 Pose6.zero scanA.2.stamp [scanB] ∧
     cfgGateX1.gate Pose6.zero (⟨1, 0, 0, 0, 0, 0⟩ : Pose6) = true ∧
     lastStamp scanA.2.stamp [scanB] ≤ scanC.2.stamp) ∧
    (runScans cfgGateX1 (scanA :: ([scanB] ++ [scanC]))
        (globalLocalizationStep cfgGateX1 ⟨none⟩ 0 initialState).1).2 =
      .firstRunOnly :: (List.replicate [scanB].length .driftOnly ++ [.fullFused]) :=
  ⟨⟨by decide, by decide, by decide, by decide,
    ⟨by decide, ⟨⟨1, Pose6.zero⟩, rfl, by decide⟩, trivial⟩, by decide, by decide⟩,
   c1_motion_gate_trace cfgGateX1 (globalLocalizationStep cfgGateX1 ⟨none⟩ 0 initialState).1
     scanA.1 scanC.1 scanA.2 scanC.2 [scanB] ⟨0, Pose6.zero⟩ ⟨2, ⟨1, 0, 0, 0, 0, 0⟩⟩
     .identityC (by decide) (by decide) (by decide) rfl (by decide)
     ⟨by decide, ⟨⟨1, Pose6.zero⟩, rfl, by decide⟩, trivial⟩ rfl (by decide) rfl (by decide)⟩

theorem inverseTimes_identityTF (t : TF) : TF.identityTF.inverseTimes t = t := by
  ext <;>
    simp [TF.inverseTimes, TF.identityTF, M3.transpose, M3.mulM, M3.mulV, M3.id, V3.dot,
      V3.sub]

theorem rpy_yaw_rotX (t : ℝ) : ((M3.rotX t).getRPY).2.2 = 0 := by
  dsimp only [M3.getRPY, M3.getEulerYPR, M3.rotX]
  rw [if_neg (by norm_num)]
  simp only [Real.arcsin_zero, neg_zero, Real.cos_zero, div_one, div_zero]
  unfold atan2
  rw [if_pos (by norm_num : (0 : ℝ) < 1)]
  simp [Real.arctan_zero]

theorem rpy_yaw_rotZ (t : ℝ) (h1 : -(Real.pi / 2) < t) (h2 : t < Real.pi / 2) :
    ((M3.rotZ t).getRPY).2.2 = t := by
  have hcos : 0 < Real.cos t := Real.cos_pos_of_mem_Ioo ⟨h1, h2⟩
  dsimp only [M3.getRPY, M3.getEulerYPR, M3.rotZ]
  rw [if_neg (by norm_num)]
  simp only [Real.arcsin_zero, neg_zero, Real.cos_zero, div_one]
  unfold atan2
  rw [if_pos hcos, ← Real.tan_eq_sin_div_cos, Real.arctan_tan h1 h2]

theorem rotationAngleOf_rotX (t : ℝ) (h1 : 0 ≤ t) (h2 : t ≤ Real.pi) :
    rotationAngleOf ⟨M3.rotX t, ⟨0, 0, 0⟩⟩ = t := by
  dsimp only [rotationAngleOf, M3.rotX]
  rw [show (1 + Real.cos t + Real.cos t - 1) / 2 = Real.cos t by ring]
  exact Real.arccos_cos h1 h2

/-- C7 counterexample: a pure roll of 0.5 radians (no translation) is a
relative rotation beyond the default rotation threshold 0.4, yet
isAboveMotionThreshold is false on it: the gate only inspects the yaw
component of the extracted RPY, so rotations about the other axes never fire
it. -/
theorem c7_counterexample :
    defaultThresholdRotation ≤
      rotationAngleOf (TF.identityTF.inverseTimes ⟨M3.rotX (1 / 2), ⟨0, 0, 0⟩⟩) ∧
    ¬ isAboveMotionThreshold defaultThresholdTranslation defaultThresholdRotation
        TF.identityTF ⟨M3.rotX (1 / 2), ⟨0, 0, 0⟩⟩ := by
  have hpi : (1 : ℝ) / 2 ≤ Real.pi := by
    have := Real.pi_gt_three
    linarith
  constructor
  · rw [inverseTimes_identityTF, rotationAngleOf_rotX (1 / 2) (by norm_num) hpi]
    unfold defaultThresholdRotation
    norm_num
  · unfold isAboveMotionThreshold
    rw [inverseTimes_identityTF]
    dsimp only
    rintro (h | h)
    · norm_num [V3.length, V3.dot, defaultThresholdTranslation, Real.sqrt_zero] at h
    · rw [rpy_yaw_rotX] at h
      norm_num [defaultThresholdRotation] at h

/-- C7 amended: the motion gate triggers a full fused update whenever the
yaw component of the RPY extracted from the relative transform between the
last localized pose and the current odometry pose reaches the rotation
threshold (rotation about the other axes is extracted but not consulted). -/
theorem c7_yaw_rotation_gate (thTrans thRot : ℝ) (lastLocalizedPose odomPose : TF)
    (h : thRot ≤ |((lastLocalizedPose.inverseTimes odomPose).basis.getRPY).2.2|) :
    isAboveMotionThreshold thTrans thRot lastLocalizedPose odomPose :=
  Or.inr h

/-- C7 witness: a pure yaw of 0.5 radians reaches the default rotation
threshold 0.4 and fires the gate. -/
theorem c7_yaw_rotation_gate_witness :
    (defaultThresholdRotation ≤
      |((TF.identityTF.inverseTimes ⟨M3.rotZ (1 / 2), ⟨0, 0, 0⟩⟩).basis.getRPY).2.2|) ∧
    isAboveMotionThreshold defaultThresholdTranslation defaultThresholdRotation
      TF.identityTF ⟨M3.rotZ (1 / 2), ⟨0, 0, 0⟩⟩ := by
  have hpi2 : (1 : ℝ) / 2 < Real.pi / 2 := by
    have := Real.pi_gt_three
    linarith
  have hyaw : ((TF.identityTF.inverseTimes ⟨M3.rotZ (1 / 2), ⟨0, 0, 0⟩⟩).basis.getRPY).2.2 =
      1 / 2 := by
    rw [inverseTimes_identityTF,
      show ((⟨M3.rotZ (1 / 2), ⟨0, 0, 0⟩⟩ : TF).basis) = M3.rotZ (1 / 2) from rfl,
      rpy_yaw_rotZ (1 / 2) (by have := Real.pi_pos; linarith) hpi2]
  have hth : defaultThresholdRotation ≤
      |((TF.identityTF.inverseTimes ⟨M3.rotZ (1 / 2), ⟨0, 0, 0⟩⟩).basis.getRPY).2.2| := by
    rw [hyaw, abs_of_pos (by norm_num : (0 : ℝ) < 1 / 2)]
    unfold defaultThresholdRotation
    norm_num
  exact ⟨hth, c7_yaw_rotation_gate defaultThresholdTranslation defaultThresholdRotation
    TF.identityTF ⟨M3.rotZ (1 / 2), ⟨0, 0, 0⟩⟩ hth⟩
